import Mathlib

/-!
Verification of the VaLog static-blog generator (src/VaLog.py) against its
natural-language specification.  The Python source is shallowly embedded:
pure string transformations become Lean functions on List Char / String,
the regular expressions of the source are translated into explicit
left-to-right scanning functions with the exact leftmost-match /
lazy-quantifier semantics of Python's re module, and the run pipeline
becomes a pure function from the fetched issue list to the set of written
artifacts.  External collaborators (the GitHub fetch, the Markdown
renderer, the template engines) are modelled as parameters, exactly as the
spec declares them to be outside the core.
-/

set_option maxRecDepth 100000

namespace VaLog

/-- The five characters of the inline-directive marker used throughout
VaLog.py: the literal that every directive regex starts with. -/
def vml : List Char := ['!', 'v', 'm', 'l', '-']

/-- Two consecutive newline characters: the separator used by
generate_base_yaml (VaLog.py line 256) to split a body into paragraphs. -/
def nn : List Char := ['\n', '\n']

/-- Python ASCII whitespace, the class matched by the \s regex escape and
stripped by str.strip(): space, tab, newline, carriage return, vertical
tab and form feed. -/
def isPySpace (c : Char) : Bool :=
  c = ' ' || c = '\t' || c = '\n' || c = '\r' || c = '\x0b' || c = '\x0c'

/-- Python str.strip() on a character list: drop leading and trailing
whitespace. -/
def pyStripL (l : List Char) : List Char :=
  ((l.dropWhile isPySpace).reverse.dropWhile isPySpace).reverse

/-- Python str.strip() on a String. -/
def pyStrip (s : String) : String := String.mk (pyStripL s.data)

/-- Substring test: does the pattern occur anywhere in the list?  Used to
state claims of the form "the body (no longer) contains the literal
directive marker". -/
def containsSeq (pat : List Char) : List Char → Bool
  | [] => pat.isPrefixOf []
  | c :: cs => pat.isPrefixOf (c :: cs) || containsSeq pat cs

/-- Does a match of the pattern of process_html_inline (VaLog.py line 154,
regex !vml-(.+?)(?=\n|$)) start at this position?  It requires the literal
marker followed by at least one character on the same line: the lazy group
needs one non-newline character, and the lookahead then lets it grow to
the end of the line. -/
def isVmlHere (l : List Char) : Bool :=
  vml.isPrefixOf l &&
    (match l.drop 5 with
     | [] => false
     | x :: _ => decide (x ≠ '\n'))

/-- One fuel-indexed left-to-right pass of re.sub for the pattern of
process_html_inline (VaLog.py lines 154-157).  At a match the payload
(the rest of the line after the marker) replaces the whole match and the
scan resumes at the match end (the line end); at a non-match one
character is copied.  The fuel equals the input length in
process_html_inline below; every step consumes at least one character,
so the fuel-exhausted case is unreachable. -/
def substVmlF : Nat → List Char → List Char
  | 0, l => l
  | _ + 1, [] => []
  | fuel + 1, c :: cs =>
    if isVmlHere (c :: cs) then
      ((c :: cs).drop 5).takeWhile (fun x => x ≠ '\n') ++
        substVmlF fuel (((c :: cs).drop 5).dropWhile (fun x => x ≠ '\n'))
    else
      c :: substVmlF fuel cs

/-- VaLogGenerator.process_html_inline (VaLog.py lines 152-157):
re.sub(r'!vml-(.+?)(?=\n|$)', payload, content). -/
def process_html_inline (content : String) : String :=
  String.mk (substVmlF content.data.length content.data)

/-- Leftmost match of re.search(r'!vml-(.+)', content) used by
extract_summary (VaLog.py line 162): the first occurrence of the marker
followed by at least one non-newline character; the greedy group is the
rest of that line. -/
def findVmlPayload : List Char → Option (List Char)
  | [] => none
  | c :: cs =>
    if isVmlHere (c :: cs) then
      some (((c :: cs).drop 5).takeWhile (fun x => x ≠ '\n'))
    else
      findVmlPayload cs

/-- Lazy scan for the literal close tag of the span regex
(VaLog.py line 169): the shortest run of non-newline characters followed
by the literal seven characters of the close tag; returns the inner text.
The dot of the lazy group does not match a newline, so the scan fails at
a newline or at the end of the input. -/
def findSpanClose : List Char → Option (List Char)
  | [] => none
  | c :: cs =>
    if ("</span>".data).isPrefixOf (c :: cs) then some []
    else if c = '\n' then none
    else (findSpanClose cs).map (fun inner => c :: inner)

/-- A match of re.search(r'<span[^>]*>(.*?)</span>', line) starting at
this position: the literal open, then everything up to the first closing
angle bracket (the greedy attribute class cannot cross it), then the lazy
inner text up to the close tag. -/
def spanInnerAt (l : List Char) : Option (List Char) :=
  if ("<span".data).isPrefixOf l then
    match (l.drop 5).dropWhile (fun x => x ≠ '>') with
    | '>' :: body => findSpanClose body
    | _ => none
  else none

/-- Leftmost match of the span regex over the whole line. -/
def searchSpanInner : List Char → Option (List Char)
  | [] => none
  | c :: cs =>
    match spanInnerAt (c :: cs) with
    | some inner => some inner
    | none => searchSpanInner cs

/-- VaLogGenerator.extract_summary (VaLog.py lines 159-173): the first
directive line's payload, then the first tagged span's inner text,
stripped; the empty string when either search fails. -/
def extract_summary (content : String) : String :=
  match findVmlPayload content.data with
  | none => ""
  | some vmlLine =>
    match searchSpanInner vmlLine with
    | some inner => pyStrip (String.mk inner)
    | none => ""

/-- A match of the summary-removal regex of process_issue_content
(VaLog.py line 184, pattern starting with the marker followed by a span
and trailing whitespace) starting at this position; returns the remainder
of the input after the whole match.  The greedy whitespace class eats all
following whitespace and the optional newline then matches empty. -/
def summaryMatchAt (l : List Char) : Option (List Char) :=
  if ("!vml-<span".data).isPrefixOf l then
    match (l.drop 10).dropWhile (fun x => x ≠ '>') with
    | '>' :: body =>
      (match (findSpanClose body).map List.length with
       | some n => some ((body.drop (n + 7)).dropWhile isPySpace)
       | none => none)
    | _ => none
  else none

/-- re.sub of the summary-removal regex with count = 1 (VaLog.py
line 184): replace only the leftmost match with the empty string. -/
def removeSummaryOnce : List Char → List Char
  | [] => []
  | c :: cs =>
    match summaryMatchAt (c :: cs) with
    | some rem => rem
    | none => c :: removeSummaryOnce cs

/-- VaLogGenerator.process_issue_content (VaLog.py lines 175-186):
returns the processed body (inline substitution, then one summary-line
removal) together with the extracted summary. -/
def process_issue_content (content : String) : String × String :=
  (String.mk (removeSummaryOnce (process_html_inline content).data),
   extract_summary content)

/-- A raw GitHub issue record as consumed by process_issues
(VaLog.py lines 192-204).  The pull_request field models the presence of
the "pull_request" key on the JSON record. -/
structure RawIssue where
  number : Nat
  title : String
  body : String
  created_at : String
  labels : List String
  pull_request : Bool
deriving DecidableEq

/-- The Article record built by process_issues (VaLog.py lines 210-222).
content holds the Markdown-rendered body, raw_content the processed
pre-render body. -/
structure Article where
  id : String
  issue_id : Nat
  title : String
  tags : List String
  verticalTitle : String
  date : String
  summary : String
  content : String
  raw_content : String
  url : String
  gradient : List String
deriving DecidableEq

/-- The article construction of process_issues (VaLog.py lines 197-222)
for one non-pull-request issue.  The external Markdown converter is the
parameter md, as the spec treats it as a pure collaborator. -/
def normalizeIssue (md : String → String) (issue : RawIssue) : Article :=
  let pc := process_issue_content issue.body
  { id := "article-" ++ toString issue.number
  , issue_id := issue.number
  , title := issue.title
  , tags := issue.labels
  , verticalTitle := issue.labels.headD "文章"
  , date := issue.created_at.take 10
  , summary := pc.2
  , content := md pc.1
  , raw_content := pc.1
  , url := "/article/" ++ toString issue.number ++ ".html"
  , gradient := ["#e74c3c", "#c0392b"] }

/-- VaLogGenerator.process_issues (VaLog.py lines 188-229) on an already
fetched issue list: records carrying the pull_request key are skipped
before any article is built; every other record yields one article. -/
def process_issues (md : String → String) (issues : List RawIssue) : List Article :=
  issues.filterMap (fun issue =>
    if issue.pull_request then none else some (normalizeIssue md issue))

/-- Python str.split on the two-newline separator, as used at
VaLog.py line 256: non-overlapping leftmost occurrences split the text;
no occurrence yields the whole text as the single piece. -/
def splitNN : List Char → List (List Char)
  | [] => [[]]
  | [c] => [[c]]
  | c :: c2 :: rest =>
    if c = '\n' ∧ c2 = '\n' then [] :: splitNN rest
    else
      match splitNN (c2 :: rest) with
      | [] => [[c]]
      | p :: ps => (c :: p) :: ps

/-- The home-page preview computation of generate_base_yaml
(VaLog.py lines 252-259): an empty body gives no paragraphs; otherwise
the body is split on blank-line separators, each piece stripped, empty
pieces dropped, and at most the first three pieces kept. -/
def previewParagraphs (raw : String) : List String :=
  if raw = "" then []
  else
    let ps := ((splitNN raw.data).map (fun p => String.mk (pyStripL p))).filter
      (fun p => decide (p ≠ ""))
    if ps.length > 3 then ps.take 3 else ps

/-- The per-article entry of the articles list of base.yaml
(VaLog.py lines 261-271). -/
structure ArticleCard where
  id : String
  title : String
  tags : List String
  verticalTitle : String
  date : String
  content : List String
  url : String
  gradient : List String
deriving DecidableEq

/-- The projection of one Article into its home-page card
(VaLog.py lines 261-270). -/
def articleCard (a : Article) : ArticleCard :=
  { id := a.id
  , title := a.title
  , tags := a.tags
  , verticalTitle := a.verticalTitle
  , date := a.date
  , content := previewParagraphs a.raw_content
  , url := a.url
  , gradient := a.gradient }

/-- The articles list of base.yaml: every processed article appears
(VaLog.py lines 250-271). -/
def articlesData (articles : List Article) : List ArticleCard :=
  articles.map articleCard

/-- The special-card content of generate_base_yaml (VaLog.py lines 286
and 299): the summary as a one-element list, or the placeholder when the
summary is empty. -/
def specialContentOf (summary : String) : List String :=
  if summary = "" then ["暂无简介"] else [summary]

/-- The selection rule for the specials list (VaLog.py lines 277-303):
with the top flag set, articles tagged top or special; otherwise only
articles tagged special. -/
def isSpecialSelected (topFlag : Bool) (a : Article) : Bool :=
  if topFlag then decide ("top" ∈ a.tags ∨ "special" ∈ a.tags)
  else decide ("special" ∈ a.tags)

/-- One entry of the specials list of base.yaml
(VaLog.py lines 282-289). -/
structure SpecialCard where
  id : String
  title : String
  tags : List String
  content : List String
  url : String
  gradient : List String
deriving DecidableEq

/-- The projection of one selected Article into its special card
(VaLog.py lines 282-289). -/
def specialCard (a : Article) : SpecialCard :=
  { id := "special-" ++ toString a.issue_id
  , title := a.title
  , tags := a.tags
  , content := specialContentOf a.summary
  , url := a.url
  , gradient := a.gradient }

/-- The specials list of base.yaml before the text-only fallback
(VaLog.py lines 274-303). -/
def specialsData (topFlag : Bool) (articles : List Article) : List SpecialCard :=
  (articles.filter (fun a => isSpecialSelected topFlag a)).map specialCard

/-- The text-only fallback of generate_base_yaml (VaLog.py lines
306-327): when no article was selected and a static view block is
configured, exactly one synthetic card built from that block (here an
abstract parameter, since its content mixes configuration with the
current time) is injected. -/
def specialsWithFiller (topFlag : Bool) (viewFiller : Option SpecialCard)
    (articles : List Article) : List SpecialCard :=
  match specialsData topFlag articles, viewFiller with
  | [], some filler => [filler]
  | s, _ => s

/-- One configured floating-menu entry (VaLog.py lines 333-335); the tag
and display fields are the values after the dictionary-get defaults. -/
structure MenuEntry where
  tag : String := ""
  display : String := ""
deriving DecidableEq

/-- The menu-target resolution loop of generate_base_yaml
(VaLog.py lines 337-342): the url of the first article whose tags contain
the entry's tag, none when no article matches. -/
def resolveMenuUrl : List Article → String → Option String
  | [], _ => none
  | article :: rest, tag =>
    if tag ∈ article.tags then some article.url else resolveMenuUrl rest tag

/-- One resolved entry of the menu list of base.yaml
(VaLog.py lines 344-348). -/
structure MenuItemData where
  tag : String
  display : String
  url : Option String
deriving DecidableEq

/-- The menu list of base.yaml (VaLog.py lines 330-348). -/
def buildMenuItems (menu : List MenuEntry) (articles : List Article) :
    List MenuItemData :=
  menu.map (fun m =>
    { tag := m.tag, display := m.display, url := resolveMenuUrl articles m.tag })

/-- Theme configuration after the dictionary-get defaults of
validate_config (VaLog.py lines 62-70). -/
structure ThemeConfig where
  mode : String := "dark"
  primary_color : String := "#e74c3c"
deriving DecidableEq

/-- The configuration fields read by validate_config
(VaLog.py lines 52-74). -/
structure Config where
  floating_menu : List MenuEntry := []
  theme : ThemeConfig := {}
deriving DecidableEq

/-- One character of the class [0-9a-fA-F]. -/
def isHexDigitCh (c : Char) : Bool :=
  ('0' ≤ c && c ≤ '9') || ('a' ≤ c && c ≤ 'f') || ('A' ≤ c && c ≤ 'F')

/-- The anchored body of the color regex of validate_config
(VaLog.py line 68): a hash sign followed by exactly six hex digits. -/
def colorPatternCore (l : List Char) : Bool :=
  match l with
  | '#' :: rest => decide (rest.length = 6) && rest.all isHexDigitCh
  | _ => false

/-- Python re.match against the anchored color pattern: the dollar anchor
also matches just before one trailing newline at the end of the
string. -/
def colorPatternMatch (s : String) : Bool :=
  colorPatternCore s.data ||
    (match s.data.getLast? with
     | some '\n' => colorPatternCore s.data.dropLast
     | _ => false)

/-- VaLogGenerator.validate_config (VaLog.py lines 52-74): the list of
configuration errors, in source order. -/
def validate_config (config : Config) : List String :=
  (if config.floating_menu.length > 10 then ["浮动菜单不能超过10个"] else []) ++
  (if config.theme.mode ≠ "dark" ∧ config.theme.mode ≠ "light" then
      ["theme.mode 必须是 dark 或 light"] else []) ++
  (if colorPatternMatch config.theme.primary_color = false then
      ["primary_color 格式错误: " ++ config.theme.primary_color] else [])

/-- VaLogGenerator.load_config (VaLog.py lines 33-50): a configuration
with any validation error aborts the program (sys.exit) before a
generator exists, modelled as the error case. -/
def load_config (config : Config) : Except (List String) Config :=
  match validate_config config with
  | [] => Except.ok config
  | errs => Except.error errs

/-- The output path of one article's detail page
(VaLog.py lines 458 and 528). -/
def articlePagePath (a : Article) : String :=
  "docs/article/" ++ toString a.issue_id ++ ".html"

/-- VaLogGenerator.generate_article_pages (VaLog.py lines 432-463): when
the article template is missing nothing is written; otherwise one detail
page per article is written, unconditionally — the function consults no
cache and takes no per-article change information. -/
def generate_article_pages (articleTemplateExists : Bool)
    (articles : List Article) : List String :=
  if articleTemplateExists then articles.map articlePagePath else []

/-- The artifacts written by one run (VaLog.py lines 533-556):
base.yaml (always, line 359), docs/index.html (when the home template
exists, lines 366-428), and the detail pages. -/
structure RunOutput where
  detailPages : List String
  baseYamlWritten : Bool
  homePageWritten : Bool
deriving DecidableEq

/-- VaLogGenerator.run (VaLog.py lines 533-556) on an already fetched
issue list: process the issues, write base.yaml, the home page and every
detail page.  The static-resource copying is an excluded side effect. -/
def run (homeTemplateExists articleTemplateExists : Bool)
    (md : String → String) (issues : List RawIssue) : RunOutput :=
  let articles := process_issues md issues
  { detailPages := generate_article_pages articleTemplateExists articles
  , baseYamlWritten := true
  , homePageWritten := homeTemplateExists }

/-- VaLogGenerator.main and init (VaLog.py lines 24-31, 602-605):
configuration is loaded and validated before the run; a validation error
aborts before any issue fetch, so no run output exists in that case. -/
def runFromConfig (config : Config) (homeTemplateExists articleTemplateExists : Bool)
    (md : String → String) (issues : List RawIssue) :
    Except (List String) RunOutput :=
  match load_config config with
  | Except.error errs => Except.error errs
  | Except.ok _ => Except.ok (run homeTemplateExists articleTemplateExists md issues)

/-- Modelled from the spec (section 4.4, Incremental Build Cache), for
comparison with the code: the spec's decision rule renders an article's
detail page if and only if its id is absent from the loaded cache or the
cached marker differs from the current one by string inequality.  The
code under src/ implements no such cache; this definition follows the
spec's words so that the claimed rule can be stated against the code's
behavior. -/
def specCacheDecision (cache : List (String × String)) (id marker : String) : Bool :=
  match cache.find? (fun kv => kv.1 == id) with
  | none => true
  | some kv => decide (kv.2 ≠ marker)

/-- Position predicate: if the directive marker occurs here, it has an
empty payload (the marker is followed by a newline or by nothing). -/
def noPayloadHere (l : List Char) : Bool :=
  if vml.isPrefixOf l then
    match l.drop 5 with
    | [] => true
    | x :: _ => decide (x = '\n')
  else true

/-- Every occurrence of the directive marker in the text has an empty
payload. -/
def allVmlEmpty : List Char → Bool
  | [] => true
  | c :: cs => noPayloadHere (c :: cs) && allVmlEmpty cs

/-- Position predicate for the hypothesis of claim C10: if the directive
marker occurs here, it is followed on the same line by a non-empty
payload that does not itself begin with the marker. -/
def goodVmlHere (l : List Char) : Bool :=
  if vml.isPrefixOf l then
    (match l.drop 5 with
     | [] => false
     | x :: _ => decide (x ≠ '\n')) && !(vml.isPrefixOf (l.drop 5))
  else true

/-- Every occurrence of the directive marker in the text satisfies the
hypothesis of claim C10. -/
def goodVmlOccs : List Char → Bool
  | [] => true
  | c :: cs => goodVmlHere (c :: cs) && goodVmlOccs cs

/-- Concrete non-pull-request issue used by concrete instantiations. -/
def sampleIssue : RawIssue :=
  { number := 1, title := "欢迎", body := "hello"
  , created_at := "2023-10-01T10:00:00Z", labels := ["教程"]
  , pull_request := false }

/-- Concrete issue whose marker would be unchanged between two runs;
used by the claim C1 instantiations. -/
def cachedIssue : RawIssue :=
  { number := 1, title := "t", body := ""
  , created_at := "2023-10-01T10:00:00Z", labels := []
  , pull_request := false }

/-- Concrete article used by the claim C5 witness. -/
def menuArticle : Article :=
  { id := "article-7", issue_id := 7, title := "news post", tags := ["news"]
  , verticalTitle := "news", date := "2023-10-05", summary := "s"
  , content := "<p>n</p>", raw_content := "n", url := "/article/7.html"
  , gradient := ["#e74c3c", "#c0392b"] }

/-- Configuration with eleven floating-menu entries, for the claim C6
witness. -/
def bigMenuConfig : Config :=
  { floating_menu := List.replicate 11 { tag := "t", display := "t" } }

/-- Concrete article carrying the special tag, used by the claim C9
instantiations. -/
def specialArticle : Article :=
  { id := "article-9", issue_id := 9, title := "S", tags := ["special"]
  , verticalTitle := "special", date := "2023-10-03", summary := "sum"
  , content := "<p>x</p>", raw_content := "x", url := "/article/9.html"
  , gradient := ["#e74c3c", "#c0392b"] }

/-- Rebuilding a string from its character list is the identity. -/
theorem string_mk_data (s : String) : String.mk s.data = s := rfl

/-- A position whose marker occurrence has an empty payload is not a
match of the inline-substitution pattern. -/
theorem isVmlHere_eq_false_of_noPayload (l : List Char)
    (h : noPayloadHere l = true) : isVmlHere l = false := by
  unfold noPayloadHere at h
  unfold isVmlHere
  cases hp : vml.isPrefixOf l with
  | false => simp [hp]
  | true =>
    rw [if_pos hp] at h
    cases hd : l.drop 5 with
    | nil => simp [hp, hd]
    | cons x xs =>
      rw [hd] at h
      simp only [decide_eq_true_eq] at h
      simp [hp, hd, h]

/-- The inline substitution leaves a text alone when every marker
occurrence in it has an empty payload. -/
theorem substVmlF_allEmpty :
    ∀ (fuel : Nat) (l : List Char), allVmlEmpty l = true → substVmlF fuel l = l := by
  intro fuel
  induction fuel with
  | zero => intro l _; rfl
  | succ n ih =>
    intro l h
    cases l with
    | nil => rfl
    | cons c cs =>
      simp only [allVmlEmpty, Bool.and_eq_true] at h
      obtain ⟨h1, h2⟩ := h
      simp [substVmlF, isVmlHere_eq_false_of_noPayload _ h1, ih cs h2]

/-- Claim C2 (confirmed): for the body consisting of a summary directive
line followed by more text, summary extraction returns exactly the span's
inner text, and the directive-substituted body is the payload followed by
the remaining text, containing no occurrence of the directive marker. -/
theorem c2_theorem :
    extract_summary "!vml-<span>Hello</span>\nMore text" = "Hello" ∧
    process_html_inline "!vml-<span>Hello</span>\nMore text"
      = "<span>Hello</span>\nMore text" ∧
    containsSeq vml
      (process_html_inline "!vml-<span>Hello</span>\nMore text").data = false := by
  decide

/-- Claim C3 (confirmed): when the body contains no directive the marker
search fails, and when the first directive's payload contains no tagged
span the span search fails; in both cases summary extraction returns the
empty string (it is a total function, so no exception is possible), and
the downstream special-card projection turns that empty summary into the
configured placeholder list. -/
theorem c3_theorem (content : String)
    (h : findVmlPayload content.data = none ∨
      ∃ p, findVmlPayload content.data = some p ∧ searchSpanInner p = none) :
    extract_summary content = "" ∧
    specialContentOf (extract_summary content) = ["暂无简介"] := by
  have hs : extract_summary content = "" := by
    rcases h with h | ⟨p, hp, hsp⟩
    · simp only [extract_summary, h]
    · simp only [extract_summary, hp, hsp]
  refine ⟨hs, ?_⟩
  rw [hs]
  rfl

/-- Claim C3 witness: a body with no directive, evaluated concretely. -/
theorem c3_witness :
    findVmlPayload "plain text".data = none ∧
    (extract_summary "plain text" = "" ∧
      specialContentOf (extract_summary "plain text") = ["暂无简介"]) :=
  ⟨by decide, c3_theorem "plain text" (Or.inl (by decide))⟩

/-- Claim C4 (corrected) counterexample: a directive with empty payload
is not matched by the substitution pattern, whose lazy group needs at
least one character; the body passes through unchanged, the directive
line is not deleted, and the marker is still present. -/
theorem c4_counterexample :
    process_html_inline "!vml-\nX" = "!vml-\nX" ∧
    process_html_inline "!vml-\nX" ≠ "\nX" ∧
    process_html_inline "!vml-\nX" ≠ "X" ∧
    containsSeq vml (process_html_inline "!vml-\nX").data = true := by
  decide

/-- Claim C4 (corrected, amended): a directive with empty payload is not
matched by the inline substitution and is left in place unchanged; in
particular a body all of whose marker occurrences have empty payloads
passes through unchanged, still containing the marker. -/
theorem c4_theorem (content : String) (h : allVmlEmpty content.data = true) :
    process_html_inline content = content ∧
    (containsSeq vml content.data = true →
      containsSeq vml (process_html_inline content).data = true) := by
  have he : process_html_inline content = content := by
    unfold process_html_inline
    rw [substVmlF_allEmpty _ _ h]
  exact ⟨he, fun hc => by rw [he]; exact hc⟩

/-- Claim C4 witness: a body ending in an empty-payload directive,
evaluated concretely. -/
theorem c4_witness :
    allVmlEmpty "A!vml-".data = true ∧
    (process_html_inline "A!vml-" = "A!vml-" ∧
      (containsSeq vml "A!vml-".data = true →
        containsSeq vml (process_html_inline "A!vml-").data = true)) :=
  ⟨by decide, c4_theorem "A!vml-" (by decide)⟩

/-- The menu resolution returns none when no article carries the tag. -/
theorem resolveMenuUrl_eq_none (tag : String) :
    ∀ (articles : List Article), (∀ a ∈ articles, tag ∉ a.tags) →
      resolveMenuUrl articles tag = none := by
  intro articles
  induction articles with
  | nil => intro _; rfl
  | cons x rest ih =>
    intro h
    simp only [resolveMenuUrl]
    rw [if_neg (h x (List.mem_cons_self x rest))]
    exact ih (fun a ha => h a (List.mem_cons_of_mem x ha))

/-- The menu resolution returns the url of the first article carrying
the tag. -/
theorem resolveMenuUrl_first (tag : String) (a : Article) (ha : tag ∈ a.tags) :
    ∀ (pre post : List Article), (∀ b ∈ pre, tag ∉ b.tags) →
      resolveMenuUrl (pre ++ a :: post) tag = some a.url := by
  intro pre
  induction pre with
  | nil =>
    intro post _
    simp only [List.nil_append, resolveMenuUrl]
    rw [if_pos ha]
  | cons x rest ih =>
    intro post hpre
    simp only [List.cons_append, resolveMenuUrl]
    rw [if_neg (hpre x (List.mem_cons_self x rest))]
    exact ih post (fun b hb => hpre b (List.mem_cons_of_mem x hb))

/-- Claim C5 (confirmed): the resolved target of a floating-menu entry is
the url of the first article, in input order, whose tag list contains the
entry's tag, and the sentinel none when no article carries the tag; the
resolution is a total function, so no exception is possible. -/
theorem c5_theorem (articles : List Article) (tag : String) :
    ((∀ a ∈ articles, tag ∉ a.tags) → resolveMenuUrl articles tag = none) ∧
    (∀ (pre : List Article) (a : Article) (post : List Article),
      articles = pre ++ a :: post → (∀ b ∈ pre, tag ∉ b.tags) → tag ∈ a.tags →
      resolveMenuUrl articles tag = some a.url) := by
  constructor
  · exact resolveMenuUrl_eq_none tag articles
  · intro pre a post heq hpre ha
    subst heq
    exact resolveMenuUrl_first tag a ha pre post hpre

/-- Claim C5 witness: one article carrying the tag resolves to its url;
a tag carried by no article resolves to none. -/
theorem c5_witness :
    resolveMenuUrl [menuArticle] "news" = some "/article/7.html" ∧
    resolveMenuUrl [menuArticle] "missing" = none :=
  ⟨(c5_theorem [menuArticle] "news").2 [] menuArticle [] rfl
      (by intro b hb; cases hb) (by decide),
    (c5_theorem [menuArticle] "missing").1 (by decide)⟩

/-- Claim C6 (confirmed): a configuration with more than ten
floating-menu entries produces the menu-count error in validate_config,
and the whole run aborts with the error list before any issue is
processed: runFromConfig returns the error and no run output exists. -/
theorem c6_theorem (config : Config) (h : config.floating_menu.length > 10) :
    "浮动菜单不能超过10个" ∈ validate_config config ∧
    ∀ (homeT articleT : Bool) (md : String → String) (issues : List RawIssue),
      runFromConfig config homeT articleT md issues =
        Except.error (validate_config config) := by
  have hv : ∃ t, validate_config config = "浮动菜单不能超过10个" :: t := by
    unfold validate_config
    rw [if_pos h]
    exact ⟨_, rfl⟩
  obtain ⟨t, ht⟩ := hv
  constructor
  · rw [ht]
    exact List.mem_cons_self _ _
  · intro homeT articleT md issues
    unfold runFromConfig load_config
    rw [ht]

/-- Claim C6 witness: the eleven-entry configuration evaluated
concretely. -/
theorem c6_witness :
    bigMenuConfig.floating_menu.length > 10 ∧
    "浮动菜单不能超过10个" ∈ validate_config bigMenuConfig ∧
    runFromConfig bigMenuConfig true true id [] =
      Except.error (validate_config bigMenuConfig) :=
  ⟨by decide, (c6_theorem bigMenuConfig (by decide)).1,
    (c6_theorem bigMenuConfig (by decide)).2 true true id []⟩

/-- Claim C7 (confirmed): every article produced by process_issues comes
from an issue of the input that is not flagged as a pull request; no
article is constructed from a pull-request record. -/
theorem c7_theorem (md : String → String) (issues : List RawIssue) (a : Article)
    (ha : a ∈ process_issues md issues) :
    ∃ i, i ∈ issues ∧ i.pull_request = false ∧ a = normalizeIssue md i := by
  unfold process_issues at ha
  rw [List.mem_filterMap] at ha
  obtain ⟨i, hi, hia⟩ := ha
  by_cases hp : i.pull_request = true
  · rw [if_pos hp] at hia
    exact absurd hia (by simp)
  · rw [if_neg hp] at hia
    exact ⟨i, hi, by simpa using hp, (Option.some.inj hia).symm⟩

/-- Claim C7 witness: the sample issue evaluated concretely. -/
theorem c7_witness :
    ∃ i, i ∈ [sampleIssue] ∧ i.pull_request = false ∧
      normalizeIssue id sampleIssue = normalizeIssue id i :=
  c7_theorem id [sampleIssue] (normalizeIssue id sampleIssue) (by decide)

/-- A text with no blank-line separator splits into itself as the single
piece. -/
theorem splitNN_no_sep :
    ∀ (l : List Char), containsSeq nn l = false → splitNN l = [l] := by
  intro l
  induction l with
  | nil => intro _; rfl
  | cons c cs ih =>
    intro h
    simp only [containsSeq, Bool.or_eq_false_iff] at h
    obtain ⟨h1, h2⟩ := h
    cases cs with
    | nil => rfl
    | cons c2 cs2 =>
      have hcc : ¬ (c = '\n' ∧ c2 = '\n') := by
        rintro ⟨e1, e2⟩
        subst e1
        subst e2
        simp [nn, List.isPrefixOf] at h1
      simp only [splitNN]
      rw [if_neg hcc, ih h2]

/-- Claim C8 (corrected) counterexample: a whitespace-only body has no
blank-line separator, yet its preview is the empty list and not the
single chunk consisting of the whole body, because the code strips each
piece and drops the pieces that become empty. -/
theorem c8_counterexample :
    containsSeq nn " ".data = false ∧
    previewParagraphs " " = [] ∧
    previewParagraphs " " ≠ [" "] := by
  decide

/-- Claim C8 (corrected, amended): the preview is the split of the body
on blank-line separators with every piece whitespace-stripped, empty
pieces dropped and at most three pieces kept; a body with no blank-line
separator whose stripped form is non-empty yields exactly one chunk, the
stripped body. -/
theorem c8_theorem (raw : String) (h1 : containsSeq nn raw.data = false)
    (h2 : pyStrip raw ≠ "") :
    previewParagraphs raw = [pyStrip raw] ∧ (previewParagraphs raw).length ≤ 3 := by
  have hne : raw ≠ "" := by
    intro he
    apply h2
    rw [he]
    rfl
  have hfil : decide (String.mk (pyStripL raw.data) ≠ "") = true := by
    simpa [pyStrip] using h2
  have hmain : previewParagraphs raw = [pyStrip raw] := by
    unfold previewParagraphs
    rw [if_neg hne, splitNN_no_sep raw.data h1]
    simp only [List.map_cons, List.map_nil, List.filter_cons, List.filter_nil, hfil,
      if_true, List.length_cons, List.length_nil]
    rfl
  refine ⟨hmain, ?_⟩
  rw [hmain]
  simp

/-- Claim C8 witness: a body with surrounding whitespace and no
blank-line separator, evaluated concretely. -/
theorem c8_witness :
    containsSeq nn " hi ".data = false ∧ pyStrip " hi " ≠ "" ∧
    (previewParagraphs " hi " = [pyStrip " hi "] ∧
      (previewParagraphs " hi ").length ≤ 3) :=
  ⟨by decide, by decide, c8_theorem " hi " (by decide) (by decide)⟩

/-- Claim C9 (corrected) counterexample: the code builds no partition
into pinned, tagged-top, special and ordinary buckets; an article tagged
special contributes a card to the specials list and at the same time a
card to the full home articles list, so the two realized buckets overlap
and no article-level mutual exclusivity holds. -/
theorem c9_counterexample :
    ¬ (∀ (topFlag : Bool) (articles : List Article) (a : Article),
        a ∈ articles →
        ¬ (specialCard a ∈ specialsData topFlag articles ∧
            articleCard a ∈ articlesData articles)) := by
  intro h
  exact h false [specialArticle] specialArticle (by decide) ⟨by decide, by decide⟩

/-- Claim C9 (corrected, amended): every processed article appears in the
home articles list; an article additionally contributes a special card
exactly when it satisfies the selection rule (tagged special, or tagged
top or special when the top flag is set); and every special card comes
from some selected article of the full list — the specials list is an
overlapping selection, not a bucket of a partition. -/
theorem c9_theorem (topFlag : Bool) (articles : List Article) (a : Article)
    (ha : a ∈ articles) :
    articleCard a ∈ articlesData articles ∧
    (isSpecialSelected topFlag a = true →
      specialCard a ∈ specialsData topFlag articles) ∧
    (∀ s ∈ specialsData topFlag articles,
      ∃ b, b ∈ articles ∧ isSpecialSelected topFlag b = true ∧ s = specialCard b) := by
  refine ⟨List.mem_map_of_mem articleCard ha, ?_, ?_⟩
  · intro hs
    exact List.mem_map_of_mem specialCard (List.mem_filter.mpr ⟨ha, hs⟩)
  · intro s hs
    obtain ⟨b, hb, hsb⟩ := List.mem_map.mp hs
    obtain ⟨hb1, hb2⟩ := List.mem_filter.mp hb
    exact ⟨b, hb1, hb2, hsb.symm⟩

/-- Claim C9 witness: the special-tagged article evaluated concretely. -/
theorem c9_witness :
    specialArticle ∈ [specialArticle] ∧
    (articleCard specialArticle ∈ articlesData [specialArticle] ∧
      (isSpecialSelected false specialArticle = true →
        specialCard specialArticle ∈ specialsData false [specialArticle]) ∧
      (∀ s ∈ specialsData false [specialArticle],
        ∃ b, b ∈ [specialArticle] ∧ isSpecialSelected false b = true ∧
          s = specialCard b)) :=
  ⟨by decide, c9_theorem false [specialArticle] specialArticle (by decide)⟩

/-- A position matched by the summary-removal pattern starts with the
directive marker. -/
theorem summaryMatch_has_vml (l : List Char)
    (h : ("!vml-<span".data).isPrefixOf l = true) : vml.isPrefixOf l = true := by
  rw [List.isPrefixOf_iff_prefix] at h ⊢
  exact List.IsPrefix.trans (by decide) h

/-- The summary-removal substitution is the identity on a text containing
no occurrence of the directive marker. -/
theorem removeSummaryOnce_of_no_vml :
    ∀ (l : List Char), containsSeq vml l = false → removeSummaryOnce l = l := by
  intro l
  induction l with
  | nil => intro _; rfl
  | cons c cs ih =>
    intro h
    simp only [containsSeq, Bool.or_eq_false_iff] at h
    obtain ⟨h1, h2⟩ := h
    have hnp : ("!vml-<span".data).isPrefixOf (c :: cs) = false := by
      cases hq : ("!vml-<span".data).isPrefixOf (c :: cs) with
      | false => rfl
      | true =>
        rw [summaryMatch_has_vml _ hq] at h1
        exact absurd h1 (by simp)
    have hm : summaryMatchAt (c :: cs) = none := by
      simp [summaryMatchAt, hnp]
    simp only [removeSummaryOnce, hm]
    rw [ih h2]

/-- Claim C10 (corrected) counterexample: in this body every marker
occurrence is followed on the same line by a non-empty payload that does
not itself begin with the marker, yet the first substitution consumes the
second marker inside the first match's payload and re-emits it verbatim,
so the summary-removal pass still finds a directive-plus-span to delete
and the processed content differs from the substituted body. -/
theorem c10_counterexample :
    goodVmlOccs "x!vml-A!vml-<span>s</span>".data = true ∧
    (process_issue_content "x!vml-A!vml-<span>s</span>").1 ≠
      process_html_inline "x!vml-A!vml-<span>s</span>" ∧
    (process_issue_content "x!vml-A!vml-<span>s</span>").1 = "xA" ∧
    process_html_inline "x!vml-A!vml-<span>s</span>" = "xA!vml-<span>s</span>" := by
  decide

/-- Claim C10 (corrected, amended): whenever the substituted body
contains no occurrence of the directive marker at all, the summary-line
removal matches nothing and the processed-content component of
process_issue_content equals process_html_inline applied to the body. -/
theorem c10_theorem (content : String)
    (h : containsSeq vml (process_html_inline content).data = false) :
    (process_issue_content content).1 = process_html_inline content := by
  show String.mk (removeSummaryOnce (process_html_inline content).data) = _
  rw [removeSummaryOnce_of_no_vml _ h]

/-- Claim C10 witness: a single-directive body whose substituted form is
free of the marker, evaluated concretely. -/
theorem c10_witness :
    containsSeq vml (process_html_inline "!vml-<b>hi</b>\nrest").data = false ∧
    (process_issue_content "!vml-<b>hi</b>\nrest").1 =
      process_html_inline "!vml-<b>hi</b>\nrest" :=
  ⟨by decide, c10_theorem "!vml-<b>hi</b>\nrest" (by decide)⟩

/-- Claim C1 (corrected) counterexample: the claimed cache rule is
refuted on a one-issue input whose cache entry carries the current
marker — the spec-side decision says the detail page must not be
re-rendered, but the run writes it anyway, because generate_article_pages
consults no cache. -/
theorem c1_counterexample :
    ¬ (∀ (cache : List (String × String)) (marker : Article → String)
        (issues : List RawIssue) (a : Article),
        a ∈ process_issues id issues →
        (articlePagePath a ∈ (run true true id issues).detailPages ↔
          specCacheDecision cache a.id (marker a) = true)) := by
  intro hclaim
  have h := hclaim [("article-1", "2023-10-01T10:00:00Z")]
    (fun _ => "2023-10-01T10:00:00Z") [cachedIssue]
    (normalizeIssue id cachedIssue) (by decide)
  exact absurd (h.mp (by decide)) (by decide)

/-- Claim C1 (corrected, amended): there is no incremental cache — every
processed article's detail page is written on every run, whatever any
cache contains; base.yaml is always rewritten, and the home page is
rewritten whenever its template is present. -/
theorem c1_theorem (md : String → String) (issues : List RawIssue) (a : Article)
    (ha : a ∈ process_issues md issues) :
    articlePagePath a ∈ (run true true md issues).detailPages ∧
    (run true true md issues).baseYamlWritten = true ∧
    (run true true md issues).homePageWritten = true := by
  refine ⟨?_, rfl, rfl⟩
  show articlePagePath a ∈ generate_article_pages true (process_issues md issues)
  unfold generate_article_pages
  rw [if_pos rfl]
  exact List.mem_map_of_mem articlePagePath ha

/-- Claim C1 witness: the single-issue run evaluated concretely. -/
theorem c1_witness :
    normalizeIssue id cachedIssue ∈ process_issues id [cachedIssue] ∧
    (articlePagePath (normalizeIssue id cachedIssue) ∈
        (run true true id [cachedIssue]).detailPages ∧
      (run true true id [cachedIssue]).baseYamlWritten = true ∧
      (run true true id [cachedIssue]).homePageWritten = true) :=
  ⟨by decide, c1_theorem id [cachedIssue] (normalizeIssue id cachedIssue) (by decide)⟩

end VaLog
